import Mathlib

/-!
Verification of the disconnect/signal pattern-analysis and threat-scoring
engine of the WiFi deauth detector (source: `enhanced_wifi_monitor.py`,
class `EnhancedWiFiMonitor`).

Modelling conventions:
* Timestamps are rationals counting seconds (`datetime` arithmetic in the
  source is exact to sub-second precision; `timedelta(minutes=5)` is 300 s,
  `timedelta(hours=24)` is 86400 s, and so on).
* Signal strengths are naturals (percent values parsed from `netsh`).
* Threat scores are integers (Python `int`), so the lower bound 0 is a
  proved property, not a typing artifact.
* Python string truthiness (`if ssid:`) is modelled by `optTruthy`:
  `None` and the empty string are falsy.
* `dict.get('ssid', 'Unknown')` in `_handle_enhanced_disconnect` never
  falls back to `'Unknown'`, because every status dictionary produced by
  `_get_default_status` already carries the `ssid` key (possibly `None`);
  the stored value is therefore the status's own optional SSID.
* The free-text `details` strings interpolated into alerts are not
  modelled; alerts keep their timestamp, score, pattern tag and reason
  label, which is what the analysed properties are about.
-/

/-- A parsed WiFi status, as produced by `_get_default_status` /
`_parse_enhanced_interface_info`. -/
structure Status where
  connected : Bool
  ssid : Option String
  signal : Nat
  state : String
  channel : Nat
  auth_type : String
  cipher : String
deriving DecidableEq, Repr

/-- One entry of `signal_history` (`_track_signal_changes`). -/
structure SignalEntry where
  timestamp : ℚ
  ssid : Option String
  signal : Nat
  channel : Nat
deriving DecidableEq, Repr

/-- One entry of `disconnect_history` (`_handle_enhanced_disconnect`). -/
structure DisconnectInfo where
  timestamp : ℚ
  ssid : Option String
  last_signal : Nat
  connection_duration : ℚ
  channel : Nat
  auth_type : String
  threat_score : ℤ
  disconnect_reason : String
deriving DecidableEq, Repr

/-- A security alert as handed to `_emit_security_alert`: the event
timestamp, threat score, pattern tag and the alert reason label. -/
structure Alert where
  timestamp : ℚ
  threat_score : ℤ
  pattern : String
  reason : String
deriving DecidableEq, Repr

/-- The mutable state of `EnhancedWiFiMonitor` that the core algorithms
read and write: the two history stores plus the monitor loop's
`last_status` and `connection_start_time` locals. -/
structure MonitorState where
  disconnect_history : List DisconnectInfo
  signal_history : List SignalEntry
  last_status : Status
  connection_start_time : Option ℚ
deriving DecidableEq, Repr

/-- `self.rapid_disconnect_threshold = 3`. -/
def rapid_disconnect_threshold : Nat := 3

/-- `self.suspicious_window_minutes = 5`, converted to seconds. -/
def suspicious_window_seconds : ℚ := 5 * 60

/-- `self.signal_drop_threshold = 30`. -/
def signal_drop_threshold : Nat := 30

/-- `self.pattern_memory_hours = 24`, converted to seconds. -/
def pattern_memory_seconds : ℚ := 24 * 3600

/-- Python truthiness of an optional string: `None` and `""` are falsy. -/
def optTruthy (o : Option String) : Bool :=
  decide (o ≠ none) && decide (o ≠ some "")

/-- `_get_recent_disconnects(minutes)`: events strictly inside the trailing
window of the given number of minutes. -/
def get_recent_disconnects (history : List DisconnectInfo) (now : ℚ)
    (minutes : ℚ) : List DisconnectInfo :=
  history.filter (fun d => now - minutes * 60 < d.timestamp)

/-- Largest element of a signal list, with the head as the base case
(the source only calls `max` on lists guarded to be nonempty). -/
def listMax : List Nat → Nat
  | [] => 0
  | x :: xs => xs.foldl max x

/-- Smallest element of a signal list, with the head as the base case. -/
def listMin : List Nat → Nat
  | [] => 0
  | x :: xs => xs.foldl min x

/-- `_had_recent_signal_drop(ssid, minutes=2)`: true when the trailing
2 minutes hold at least 5 samples for this SSID whose max−min spread
exceeds `signal_drop_threshold`. -/
def had_recent_signal_drop (signal_history : List SignalEntry) (now : ℚ)
    (ssid : Option String) : Bool :=
  match ssid with
  | none => false
  | some s =>
    if s = "" then false
    else
      let recent_signals := signal_history.filter
        (fun e => now - 2 * 60 < e.timestamp ∧ e.ssid = some s)
      if recent_signals.length < 5 then false
      else
        let signals := recent_signals.map (·.signal)
        listMax signals - listMin signals > signal_drop_threshold

/-- `_calculate_threat_score`: the additive six-factor scorer, capped at 10.
The recent-disconnect list, the recent-signal-drop flag and the current
hour of day are taken as explicit inputs (in the source they are read via
`_get_recent_disconnects`, `_had_recent_signal_drop` and
`datetime.now().hour`; the wrapper below passes them in). -/
def calculate_threat_score (last_status : Status) (connection_duration : ℚ)
    (recent_disconnects : List DisconnectInfo) (current_hour : ℤ)
    (recent_signal_drop : Bool) : ℤ :=
  let score : ℤ := 0
  -- Factor 1: connection duration (`score += 6` / `score += 3`)
  let score := score + (if connection_duration < 30 then 6
    else if connection_duration < 120 then 3 else 0)
  -- Factor 2: signal strength at disconnect
  let last_signal := last_status.signal
  let score := score + (if 70 < last_signal then 4
    else if 50 < last_signal then 2 else 0)
  -- Factor 3: recent disconnect frequency
  let score := score + (if 3 ≤ recent_disconnects.length then 8
    else if 2 ≤ recent_disconnects.length then 5 else 0)
  -- Factor 4: time-based patterns
  let score := score + (if current_hour < 6 ∨ 22 < current_hour then 2 else 0)
  -- Factor 5: signal drop before disconnect
  let score := score + (if recent_signal_drop then 6 else 0)
  -- Factor 6: repeated targeting of the same network
  let score := score +
    (match last_status.ssid with
     | some ssid =>
       if ssid ≠ "" then
         if 2 ≤ (recent_disconnects.filter (fun d => d.ssid = some ssid)).length
         then 5 else 0
       else 0
     | none => 0)
  min score 10

/-- `_infer_disconnect_reason`. -/
def infer_disconnect_reason (last_status : Status) : String :=
  if 70 < last_status.signal then "Strong signal disconnect (possible deauth)"
  else if last_status.signal < 30 then "Weak signal disconnect"
  else "Normal signal disconnect"

/-- Factor 1 of the scorer, as an isolated function of the duration. -/
def durationFactor (d : ℚ) : ℤ :=
  if d < 30 then 6 else if d < 120 then 3 else 0

/-- Factor 2 of the scorer, as an isolated function of the last signal. -/
def signalFactor (s : Nat) : ℤ :=
  if 70 < s then 4 else if 50 < s then 2 else 0

/-- Factor 3 of the scorer, as an isolated function of the number of
recent disconnects. -/
def frequencyFactor (n : Nat) : ℤ :=
  if 3 ≤ n then 8 else if 2 ≤ n then 5 else 0

/-- Factor 4 of the scorer, as an isolated function of the hour of day. -/
def hourFactor (h : ℤ) : ℤ :=
  if h < 6 ∨ 22 < h then 2 else 0

/-- Factor 5 of the scorer, as an isolated function of the drop flag. -/
def dropFactor (b : Bool) : ℤ :=
  if b then 6 else 0

/-- Factor 6 of the scorer, as an isolated function of the SSID and the
recent disconnects. -/
def sameNetworkFactor (ssid : Option String)
    (recent_disconnects : List DisconnectInfo) : ℤ :=
  match ssid with
  | some s =>
    if s ≠ "" then
      if 2 ≤ (recent_disconnects.filter (fun d => d.ssid = some s)).length
      then 5 else 0
    else 0
  | none => 0

/-- The local hour of day of a timestamp (`datetime.now().hour`): whole
hours since the epoch, reduced modulo 24. -/
def hourOf (t : ℚ) : ℤ :=
  (⌊t⌋ / 3600) % 24

/-- `_get_default_status`. -/
def default_status : Status :=
  { connected := false, ssid := none, signal := 0, state := "disconnected",
    channel := 0, auth_type := "Unknown", cipher := "Unknown" }

/-- The monitor's initial state (`__init__`): empty stores, default last
status, no connection start time. -/
def initialState : MonitorState :=
  { disconnect_history := [], signal_history := [],
    last_status := default_status, connection_start_time := none }

/-- `_track_signal_changes`: when connected with a nonzero signal, append
a sample and prune the signal store to the trailing hour.
(`_detect_signal_anomalies` only logs and is not modelled.) -/
def track_signal_changes (st : MonitorState) (now : ℚ)
    (current_status : Status) : MonitorState :=
  if ¬current_status.connected ∨ current_status.signal = 0 then st
  else
    let entry : SignalEntry :=
      { timestamp := now, ssid := current_status.ssid,
        signal := current_status.signal, channel := current_status.channel }
    let pruned := (st.signal_history ++ [entry]).filter
      (fun s => now - 3600 < s.timestamp)
    { st with signal_history := pruned }

/-- The `DisconnectEvent` record built by `_handle_enhanced_disconnect`. -/
def mkDisconnectInfo (st : MonitorState) (now : ℚ) (last_status : Status)
    (connection_duration : ℚ) : DisconnectInfo :=
  { timestamp := now,
    ssid := last_status.ssid,
    last_signal := last_status.signal,
    connection_duration := connection_duration,
    channel := last_status.channel,
    auth_type := last_status.auth_type,
    threat_score := calculate_threat_score last_status connection_duration
      (get_recent_disconnects st.disconnect_history now 5) (hourOf now)
      (had_recent_signal_drop st.signal_history now last_status.ssid),
    disconnect_reason := infer_disconnect_reason last_status }

/-- `_handle_enhanced_disconnect`: score the event, append it, then prune
the disconnect store to the trailing `pattern_memory_hours` window.
(The immediate `_emit_security_alert` calls do not change the stores and
are not modelled.) -/
def handle_enhanced_disconnect (st : MonitorState) (now : ℚ)
    (last_status : Status) (connection_duration : ℚ) : MonitorState :=
  let info := mkDisconnectInfo st now last_status connection_duration
  let pruned := (st.disconnect_history ++ [info]).filter
    (fun d => now - pattern_memory_seconds < d.timestamp)
  { st with disconnect_history := pruned }

/-- One iteration of `_enhanced_monitor_loop` on a fresh snapshot
(`recordSnapshot` in the specification's interface): track signal changes
while connected, create a disconnect event exactly on a
connected-to-disconnected edge, restart the connection timer on a
disconnected-to-connected edge, and remember the snapshot as
`last_status`. -/
def recordSnapshot (st : MonitorState) (now : ℚ)
    (current_status : Status) : MonitorState :=
  let st := if current_status.connected
    then track_signal_changes st now current_status else st
  let st :=
    if st.last_status.connected ∧ ¬current_status.connected then
      let connection_duration :=
        match st.connection_start_time with
        | some t0 => now - t0
        | none => 0
      let st := handle_enhanced_disconnect st now st.last_status
        connection_duration
      { st with connection_start_time := none }
    else if current_status.connected ∧ ¬st.last_status.connected then
      { st with connection_start_time := some now }
    else st
  { st with last_status := current_status }

/-- `_analyze_rapid_disconnects`: if the trailing 5-minute window holds at
least `rapid_disconnect_threshold` events, alert with score
`min(count*2, 10)` and keep only the events at or before the window's
cutoff. -/
def analyze_rapid_disconnects (st : MonitorState) (now : ℚ) :
    MonitorState × List Alert :=
  let recent_window := now - suspicious_window_seconds
  let recent_disconnects :=
    st.disconnect_history.filter (fun d => recent_window < d.timestamp)
  if rapid_disconnect_threshold ≤ recent_disconnects.length then
    let threat_score : ℤ := min ((recent_disconnects.length : ℤ) * 2) 10
    ({ st with disconnect_history :=
        st.disconnect_history.filter (fun d => d.timestamp ≤ recent_window) },
     [{ timestamp := now, threat_score := threat_score,
        pattern := "rapid_disconnect",
        reason := "Rapid disconnect pattern detected" }])
  else (st, [])

/-- Consecutive differences of a list of timestamps (the `intervals` loop
in `_analyze_temporal_patterns`). -/
def intervalsOf : List ℚ → List ℚ
  | a :: b :: rest => (b - a) :: intervalsOf (b :: rest)
  | _ => []

/-- Arithmetic mean of a list of rationals (`sum(l)/len(l)`). -/
def listAvg (l : List ℚ) : ℚ :=
  l.sum / l.length

/-- `_analyze_temporal_patterns`: with at least 4 events in the trailing
2 hours, alert with fixed score 8 when the mean absolute deviation of the
inter-event intervals is below 30 s and the average interval is below
600 s. -/
def analyze_temporal_patterns (history : List DisconnectInfo) (now : ℚ) :
    List Alert :=
  let recent_disconnects := history.filter (fun d => now - 2 * 3600 < d.timestamp)
  if 4 ≤ recent_disconnects.length then
    let intervals := intervalsOf (recent_disconnects.map (·.timestamp))
    if 3 ≤ intervals.length then
      let avg_interval := listAvg intervals
      let avg_deviation := listAvg (intervals.map (fun i => |i - avg_interval|))
      if avg_deviation < 30 ∧ avg_interval < 600 then
        [{ timestamp := now, threat_score := 8,
           pattern := "temporal_regularity",
           reason := "Automated attack pattern detected" }]
      else []
    else []
  else []

/-- First occurrences of the elements of a list, in order (the key order
of a Python dict built by repeated insertion). -/
def dedupFirst {α : Type} [DecidableEq α] (l : List α) : List α :=
  l.foldl (fun acc s => if s ∈ acc then acc else acc ++ [s]) []

/-- `_analyze_network_targeting`: over the trailing hour, any truthy SSID
other than `"Unknown"` with at least 3 disconnects yields an alert of
score 7, one per qualifying SSID in first-occurrence order. -/
def analyze_network_targeting (history : List DisconnectInfo) (now : ℚ) :
    List Alert :=
  let recent_disconnects := history.filter (fun d => now - 3600 < d.timestamp)
  let keyed := recent_disconnects.filter
    (fun d => optTruthy d.ssid ∧ d.ssid ≠ some "Unknown")
  let ssids := dedupFirst (keyed.map (·.ssid))
  ssids.filterMap (fun s =>
    let count := (keyed.filter (fun d => d.ssid = s)).length
    if 3 ≤ count then
      some { timestamp := now, threat_score := 7,
             pattern := "network_targeting",
             reason := "Network targeting detected" }
    else none)

/-- `_calculate_variance`: population variance, 0 for fewer than two
values. -/
def calculate_variance (values : List ℚ) : ℚ :=
  if values.length < 2 then 0
  else
    let mean := listAvg values
    listAvg (values.map (fun x => (x - mean) ^ 2))

/-- `_analyze_signal_based_attacks`: with at least 10 samples in the
trailing 10 minutes, any truthy SSID with at least 10 samples whose
variance exceeds 400 while the mean signal is below 50 yields an alert of
score 6. -/
def analyze_signal_based_attacks (signal_history : List SignalEntry)
    (now : ℚ) : List Alert :=
  let recent_signals := signal_history.filter
    (fun s => now - 10 * 60 < s.timestamp)
  if recent_signals.length < 10 then []
  else
    let keyed := recent_signals.filter (fun s => optTruthy s.ssid)
    let ssids := dedupFirst (keyed.map (·.ssid))
    ssids.filterMap (fun ss =>
      let signals := (keyed.filter (fun s => s.ssid = ss)).map
        (fun s => (s.signal : ℚ))
      if 10 ≤ signals.length then
        let signal_variance := calculate_variance signals
        let avg_signal := listAvg signals
        if 400 < signal_variance ∧ avg_signal < 50 then
          some { timestamp := now, threat_score := 6,
                 pattern := "signal_interference",
                 reason := "Signal interference detected" }
        else none
      else none)

/-- `_enhanced_pattern_analysis` (the interface's `tick()`): a no-op with
fewer than 2 stored disconnect events, otherwise the four detectors in
order. Rapid-disconnect analysis may clear part of the disconnect store;
the remaining detectors read the store it leaves behind. -/
def tick (st : MonitorState) (now : ℚ) : MonitorState × List Alert :=
  if st.disconnect_history.length < 2 then (st, [])
  else
    let res := analyze_rapid_disconnects st now
    let st1 := res.1
    let a2 := analyze_temporal_patterns st1.disconnect_history now
    let a3 := analyze_network_targeting st1.disconnect_history now
    let a4 := analyze_signal_based_attacks st1.signal_history now
    (st1, res.2 ++ a2 ++ a3 ++ a4)

/-- An entry of the list returned by `get_recent_events`. The source
formats the timestamp with `strftime("%Y-%m-%d %H:%M:%S")`; the rational
timestamp is kept here, and its truncation to whole seconds `⌊·⌋` is the
sort key, since the lexicographic order of that fixed-width format agrees
with the order of whole-second counts. -/
structure EventSummary where
  timestamp : ℚ
  ssid : Option String
  threat_score : ℤ
  reason : String
  duration : ℚ
deriving DecidableEq, Repr

/-- The comparison used to sort summaries: timestamps (truncated to the
second, as the formatted sort key is) in descending order. Python's
`sorted(..., reverse=True)` is a stable sort under this relation, and so
is `List.insertionSort` with it. -/
def summaryGE (a b : EventSummary) : Prop :=
  ⌊b.timestamp⌋ ≤ ⌊a.timestamp⌋

instance : DecidableRel summaryGE := fun a b =>
  inferInstanceAs (Decidable (⌊b.timestamp⌋ ≤ ⌊a.timestamp⌋))

instance : IsTotal EventSummary summaryGE :=
  ⟨fun a b => le_total ⌊b.timestamp⌋ ⌊a.timestamp⌋⟩

instance : IsTrans EventSummary summaryGE :=
  ⟨fun _ _ _ h1 h2 => le_trans h2 h1⟩

/-- The per-event summary record built inside `get_recent_events`. -/
def mkEventSummary (d : DisconnectInfo) : EventSummary :=
  { timestamp := d.timestamp, ssid := d.ssid,
    threat_score := d.threat_score, reason := d.disconnect_reason,
    duration := d.connection_duration }

/-- `get_recent_events`: summaries of the disconnect events of the
trailing hour, newest first (`sorted(..., reverse=True)` on the formatted
timestamp key). -/
def get_recent_events (st : MonitorState) (now : ℚ) : List EventSummary :=
  let events := (st.disconnect_history.filter
      (fun d => now - 3600 < d.timestamp)).map mkEventSummary
  List.insertionSort summaryGE events

/-! ## Claim C1: the threat scorer is pure and bounded. -/

theorem durationFactor_nonneg (d : ℚ) : 0 ≤ durationFactor d := by
  unfold durationFactor; split_ifs <;> omega

theorem signalFactor_nonneg (s : Nat) : 0 ≤ signalFactor s := by
  unfold signalFactor; split_ifs <;> omega

theorem frequencyFactor_nonneg (n : Nat) : 0 ≤ frequencyFactor n := by
  unfold frequencyFactor; split_ifs <;> omega

theorem hourFactor_nonneg (h : ℤ) : 0 ≤ hourFactor h := by
  unfold hourFactor; split_ifs <;> omega

theorem dropFactor_nonneg (b : Bool) : 0 ≤ dropFactor b := by
  unfold dropFactor; split_ifs <;> omega

theorem sameNetworkFactor_nonneg (ssid : Option String)
    (rd : List DisconnectInfo) : 0 ≤ sameNetworkFactor ssid rd := by
  unfold sameNetworkFactor
  cases ssid
  · dsimp only; omega
  · dsimp only; split_ifs <;> omega

/-- C1: `_calculate_threat_score`, taken as a function of the disconnect
event data (last status and connection duration), the recent-disconnect
history, the recent-signal-drop flag and the current hour, is a pure
function (it is a total function of exactly these inputs, so equal inputs
give equal scores), its value is the six-factor sum clamped by
`min(sum, 10)`, and it always lies within `[0, 10]`. -/
theorem scorer_is_clamped_six_factor_sum (ls : Status) (cd : ℚ)
    (rd : List DisconnectInfo) (ch : ℤ) (rs : Bool) :
    calculate_threat_score ls cd rd ch rs
      = min (durationFactor cd + signalFactor ls.signal
          + frequencyFactor rd.length + hourFactor ch + dropFactor rs
          + sameNetworkFactor ls.ssid rd) 10
    ∧ 0 ≤ calculate_threat_score ls cd rd ch rs
    ∧ calculate_threat_score ls cd rd ch rs ≤ 10 := by
  have he : calculate_threat_score ls cd rd ch rs
      = min (durationFactor cd + signalFactor ls.signal
          + frequencyFactor rd.length + hourFactor ch + dropFactor rs
          + sameNetworkFactor ls.ssid rd) 10 := by
    obtain ⟨conn, ssid, sig, stt, chan, aty, cip⟩ := ls
    cases ssid <;>
      simp only [calculate_threat_score, durationFactor, signalFactor,
        frequencyFactor, hourFactor, dropFactor, sameNetworkFactor, zero_add]
  refine ⟨he, ?_, ?_⟩
  · rw [he]
    refine le_min ?_ (by norm_num)
    have h1 := durationFactor_nonneg cd
    have h2 := signalFactor_nonneg ls.signal
    have h3 := frequencyFactor_nonneg rd.length
    have h4 := hourFactor_nonneg ch
    have h5 := dropFactor_nonneg rs
    have h6 := sameNetworkFactor_nonneg ls.ssid rd
    omega
  · rw [he]
    exact min_le_right _ _

/-! ## Claim C8: the signal-strength factor of the scorer. -/

/-- A connected status with the given SSID and signal, with neutral
remaining fields. -/
def connectedStatus (ssid : Option String) (signal : Nat) : Status :=
  { connected := true, ssid := ssid, signal := signal, state := "connected",
    channel := 6, auth_type := "WPA2", cipher := "CCMP" }

/-- C8 counterexample: the claim says a last signal of exactly 50% gets +2
from the signal-strength factor. In the code the branch is
`elif last_signal > 50`, so a signal of exactly 50 contributes 0: with all
other factors neutral (duration 1800 s, no recent disconnects, hour 14, no
signal drop) the score at signal 50 is 0, not 2, while signal 51 gives
the score 2. -/
theorem signal_factor_at_50_counterexample :
    calculate_threat_score (connectedStatus (some "Office") 50) 1800 [] 14 false = 0
    ∧ calculate_threat_score (connectedStatus (some "Office") 51) 1800 [] 14 false = 2
    ∧ signalFactor 50 = 0
    ∧ (0 : ℤ) ≠ 2 := by
  refine ⟨by decide, by decide, by decide, by decide⟩

/-! ## Claim C10: tick is a no-op with fewer than two stored events. -/

/-- C10: when the disconnect store holds fewer than 2 events,
`_enhanced_pattern_analysis` returns before running any detector: `tick`
emits no alert of any kind (regardless of the signal store's contents)
and leaves the whole state, in particular both stores, unchanged. -/
theorem tick_noop_below_two_events (st : MonitorState) (now : ℚ)
    (h : st.disconnect_history.length < 2) : tick st now = (st, []) := by
  unfold tick
  rw [if_pos h]

/-- Ten signal samples for SSID "Cafe", alternating between 10% and 90%,
at times 10, 20, ..., 100 (all inside a 10-minute window before time
200). With equal counts of 10s and 90s the mean is exactly 50 and the
population variance is 1600. -/
def cafeSamples : List SignalEntry :=
  [{ timestamp := 10, ssid := some "Cafe", signal := 10, channel := 6 },
   { timestamp := 20, ssid := some "Cafe", signal := 90, channel := 6 },
   { timestamp := 30, ssid := some "Cafe", signal := 10, channel := 6 },
   { timestamp := 40, ssid := some "Cafe", signal := 90, channel := 6 },
   { timestamp := 50, ssid := some "Cafe", signal := 10, channel := 6 },
   { timestamp := 60, ssid := some "Cafe", signal := 90, channel := 6 },
   { timestamp := 70, ssid := some "Cafe", signal := 10, channel := 6 },
   { timestamp := 80, ssid := some "Cafe", signal := 90, channel := 6 },
   { timestamp := 90, ssid := some "Cafe", signal := 10, channel := 6 },
   { timestamp := 100, ssid := some "Cafe", signal := 90, channel := 6 }]

/-- A state holding only the ten "Cafe" samples and no disconnect
events. -/
def cafeOnlyState : MonitorState :=
  { initialState with signal_history := cafeSamples }

/-- C10 witness: at the concrete signal-heavy state with an empty
disconnect store, `tick` at time 200 really is a no-op. -/
theorem tick_noop_below_two_events_witness :
    cafeOnlyState.disconnect_history.length < 2
    ∧ tick cafeOnlyState 200 = (cafeOnlyState, []) :=
  ⟨by decide, tick_noop_below_two_events cafeOnlyState 200 (by decide)⟩

/-! ## Claim C3: exactly one event per connected-to-disconnected edge. -/

/-- C3: a snapshot call on a connected-to-disconnected transition appends
exactly one disconnect event stamped with the call time (provided, as on
any monotone trace, all stored events are older than the call), and a
snapshot call on a disconnected-to-disconnected repeat leaves the
disconnect store exactly as it was. -/
theorem disconnect_event_exactly_on_edge (st st2 : MonitorState)
    (now now2 : ℚ) (cur cur2 : Status)
    (h1 : st.last_status.connected = true) (h2 : cur.connected = false)
    (h3 : ∀ d ∈ st.disconnect_history, d.timestamp < now)
    (h4 : st2.last_status.connected = false) (h5 : cur2.connected = false) :
    ((recordSnapshot st now cur).disconnect_history.filter
        (fun d => d.timestamp = now)).length = 1
    ∧ (recordSnapshot st2 now2 cur2).disconnect_history
        = st2.disconnect_history := by
  constructor
  · simp only [recordSnapshot, h1, h2, handle_enhanced_disconnect,
      mkDisconnectInfo]
    norm_num [h1]
    have hA : (List.filter (fun a => decide (a.timestamp = now) &&
        decide (now - pattern_memory_seconds < a.timestamp))
          st.disconnect_history) = [] := by
      rw [List.filter_eq_nil_iff]
      intro a ha
      have hlt := h3 a ha
      simp only [Bool.and_eq_true, decide_eq_true_eq, not_and]
      intro he
      exact absurd he (ne_of_lt hlt)
    rw [hA]
    have hB : now - pattern_memory_seconds < now := by
      unfold pattern_memory_seconds
      linarith
    simp [hB]
  · simp [recordSnapshot, h4, h5]

/-- A state that is connected to "HomeNet" with empty stores. -/
def connState : MonitorState :=
  { initialState with last_status := connectedStatus (some "HomeNet") 80 }

/-- C3 witness: at time 10 a disconnected snapshot after a connected one
creates exactly one event, and a disconnected snapshot on the initial
(disconnected) state creates none. -/
theorem disconnect_event_exactly_on_edge_witness :
    connState.last_status.connected = true
    ∧ default_status.connected = false
    ∧ (∀ d ∈ connState.disconnect_history, d.timestamp < 10)
    ∧ initialState.last_status.connected = false
    ∧ ((recordSnapshot connState 10 default_status).disconnect_history.filter
        (fun d => d.timestamp = 10)).length = 1
    ∧ (recordSnapshot initialState 20 default_status).disconnect_history
        = initialState.disconnect_history := by
  refine ⟨by decide, by decide, by simp [connState, initialState], by decide,
    ?_, ?_⟩
  · exact (disconnect_event_exactly_on_edge connState initialState 10 20
      default_status default_status (by decide) (by decide)
      (by simp [connState, initialState]) (by decide) (by decide)).1
  · exact (disconnect_event_exactly_on_edge connState initialState 10 20
      default_status default_status (by decide) (by decide)
      (by simp [connState, initialState]) (by decide) (by decide)).2

/-! ## Claim C2: the stores' time windows under recordSnapshot and tick. -/

/-- The state after connecting to "HomeNet" at time 0 and observing the
disconnect at time 10: one disconnect event stamped 10, one signal sample
stamped 0. -/
def earlyTraceState : MonitorState :=
  recordSnapshot (recordSnapshot initialState 0
    (connectedStatus (some "HomeNet") 80)) 10 default_status

/-- C2 counterexample: the claim says every `recordSnapshot`/`tick` call
re-enforces the 24 h / 1 h windows, including calls that do not append.
But pruning only happens on append: after the trace (connect at 0,
disconnect at 10), a disconnected snapshot at time 100000 (≈27.8 h later)
— and likewise a `tick` at 100000 — still leaves the event stamped 10
(99990 s stale, beyond 24 h = 86400 s) in the disconnect store and the
sample stamped 0 (beyond 1 h = 3600 s) in the signal store. -/
theorem window_enforced_every_call_counterexample :
    ((recordSnapshot earlyTraceState 100000 default_status).disconnect_history.map
        (fun d => d.timestamp) = [10])
    ∧ ((recordSnapshot earlyTraceState 100000 default_status).signal_history.map
        (fun s => s.timestamp) = [0])
    ∧ ((tick earlyTraceState 100000).1.disconnect_history.map
        (fun d => d.timestamp) = [10])
    ∧ ((tick earlyTraceState 100000).1.signal_history.map
        (fun s => s.timestamp) = [0])
    ∧ pattern_memory_seconds < (100000 : ℚ) - 10
    ∧ (3600 : ℚ) < (100000 : ℚ) - 0 := by
  refine ⟨?_, ?_, ?_, ?_, by norm_num [pattern_memory_seconds], by norm_num⟩ <;>
    norm_num [earlyTraceState, recordSnapshot, track_signal_changes,
      handle_enhanced_disconnect, mkDisconnectInfo, initialState,
      default_status, connectedStatus, pattern_memory_seconds, tick]

/-- C2 amended: the window invariants are enforced by the appending calls
only — a `recordSnapshot` that records a disconnect leaves no event older
than 24 h in the disconnect store, and a `recordSnapshot` that records a
signal sample (connected, nonzero signal) leaves no sample older than 1 h
in the signal store — and a `tick` never re-enforces them: every stored
disconnect event at least 24 h old survives any `tick` (the
rapid-disconnect clear removes only events strictly inside its 5-minute
window, which a beyond-24 h event cannot be in), and a `tick` never
modifies the signal store at all, so stale entries persist until the next
appending call (the counterexample exhibits the same persistence across a
snapshot call repeating the disconnected state). -/
theorem windows_enforced_on_append (st st2 st3 : MonitorState)
    (now now2 now3 : ℚ) (cur cur2 : Status)
    (h1 : st.last_status.connected = true) (h2 : cur.connected = false)
    (h3 : cur2.connected = true) (h4 : cur2.signal ≠ 0) :
    (∀ d ∈ (recordSnapshot st now cur).disconnect_history,
        now - pattern_memory_seconds < d.timestamp)
    ∧ (∀ s ∈ (recordSnapshot st2 now2 cur2).signal_history,
        now2 - 3600 < s.timestamp)
    ∧ (∀ d ∈ st3.disconnect_history,
        d.timestamp ≤ now3 - pattern_memory_seconds →
          d ∈ (tick st3 now3).1.disconnect_history)
    ∧ (tick st3 now3).1.signal_history = st3.signal_history := by
  refine ⟨?_, ?_, ?_, ?_⟩
  · simp only [recordSnapshot, h1, h2, handle_enhanced_disconnect,
      mkDisconnectInfo]
    norm_num [h1]
    intro d hd
    rcases hd with ⟨_, hb⟩ | ⟨_, hb⟩ <;> exact hb
  · simp only [recordSnapshot, h3, h4, track_signal_changes]
    norm_num [h3, h4]
    intro s hs
    split_ifs at hs <;>
    · simp only [List.mem_append, List.mem_filter, decide_eq_true_eq,
        List.mem_singleton] at hs
      rcases hs with ⟨_, hb⟩ | hb
      · exact hb
      · rw [hb]
        linarith
  · intro d hd hstale
    rw [tick]
    split_ifs with hg
    · exact hd
    · dsimp only
      unfold analyze_rapid_disconnects
      dsimp only
      split_ifs with hc
      · dsimp only
        rw [List.mem_filter]
        refine ⟨hd, ?_⟩
        simp only [decide_eq_true_eq]
        have hw : now3 - pattern_memory_seconds
            ≤ now3 - suspicious_window_seconds := by
          unfold pattern_memory_seconds suspicious_window_seconds
          linarith
        linarith
      · exact hd
  · rw [tick]
    split_ifs with hg
    · rfl
    · dsimp only
      unfold analyze_rapid_disconnects
      dsimp only
      split_ifs with hc <;> rfl

/-- C2 amended witness: at a concrete appending call of each kind (the
disconnect observed at time 10 after connecting at time 0, and a
connected snapshot recorded at time 5) the freshly pruned stores hold no
stale entries, and at the concrete stale state the tick at time 100000
retains its beyond-24 h event and leaves the signal store untouched. -/
theorem windows_enforced_on_append_witness :
    connState.last_status.connected = true
    ∧ default_status.connected = false
    ∧ (connectedStatus (some "HomeNet") 80).connected = true
    ∧ (connectedStatus (some "HomeNet") 80).signal ≠ 0
    ∧ (∀ d ∈ (recordSnapshot connState 10 default_status).disconnect_history,
        (10 : ℚ) - pattern_memory_seconds < d.timestamp)
    ∧ (∀ s ∈ (recordSnapshot initialState 5
          (connectedStatus (some "HomeNet") 80)).signal_history,
        (5 : ℚ) - 3600 < s.timestamp)
    ∧ (∀ d ∈ earlyTraceState.disconnect_history,
        d.timestamp ≤ (100000 : ℚ) - pattern_memory_seconds →
          d ∈ (tick earlyTraceState 100000).1.disconnect_history)
    ∧ (tick earlyTraceState 100000).1.signal_history
        = earlyTraceState.signal_history := by
  refine ⟨by decide, by decide, by decide, by decide, ?_, ?_, ?_, ?_⟩
  · exact (windows_enforced_on_append connState initialState earlyTraceState
      10 5 100000 default_status (connectedStatus (some "HomeNet") 80)
      (by decide) (by decide) (by decide) (by decide)).1
  · exact (windows_enforced_on_append connState initialState earlyTraceState
      10 5 100000 default_status (connectedStatus (some "HomeNet") 80)
      (by decide) (by decide) (by decide) (by decide)).2.1
  · exact (windows_enforced_on_append connState initialState earlyTraceState
      10 5 100000 default_status (connectedStatus (some "HomeNet") 80)
      (by decide) (by decide) (by decide) (by decide)).2.2.1
  · exact (windows_enforced_on_append connState initialState earlyTraceState
      10 5 100000 default_status (connectedStatus (some "HomeNet") 80)
      (by decide) (by decide) (by decide) (by decide)).2.2.2

/-! ## Claim C4: the rapid-disconnect detector. -/

/-- The number of stored disconnect events strictly inside the trailing
5-minute window ending at `now`. -/
def rapidWindowCount (st : MonitorState) (now : ℚ) : Nat :=
  (st.disconnect_history.filter
    (fun d => now - suspicious_window_seconds < d.timestamp)).length

theorem mem_temporal_tag (h : List DisconnectInfo) (now : ℚ) :
    ∀ a ∈ analyze_temporal_patterns h now, a.pattern = "temporal_regularity" := by
  intro a ha
  unfold analyze_temporal_patterns at ha
  try dsimp only at ha
  split_ifs at ha <;> simp at ha
  rw [ha]

theorem mem_targeting_tag (h : List DisconnectInfo) (now : ℚ) :
    ∀ a ∈ analyze_network_targeting h now, a.pattern = "network_targeting" := by
  intro a ha
  unfold analyze_network_targeting at ha
  rw [List.mem_filterMap] at ha
  obtain ⟨b, _, hb⟩ := ha
  try dsimp only at hb
  split_ifs at hb <;> simp at hb
  rw [← hb]

theorem mem_interference_tag (sh : List SignalEntry) (now : ℚ) :
    ∀ a ∈ analyze_signal_based_attacks sh now, a.pattern = "signal_interference" := by
  intro a ha
  unfold analyze_signal_based_attacks at ha
  try dsimp only at ha
  split_ifs at ha
  · simp at ha
  · rw [List.mem_filterMap] at ha
    obtain ⟨b, _, hb⟩ := ha
    try dsimp only at hb
    split_ifs at hb <;> simp at hb
    rw [← hb]

/-- A disconnect event from SSID "Office", as stored after a 10-second
connection dropped from an 80% signal. -/
def officeEvent (t : ℚ) : DisconnectInfo :=
  { timestamp := t, ssid := some "Office", last_signal := 80,
    connection_duration := 10, channel := 6, auth_type := "WPA2",
    threat_score := 9, disconnect_reason := "Strong signal disconnect (possible deauth)" }

/-- Four "Office" disconnects within 3 minutes (times 0, 60, 120, 180). -/
def officeState : MonitorState :=
  { initialState with disconnect_history :=
      [officeEvent 0, officeEvent 60, officeEvent 120, officeEvent 180] }

/-- C4: on any tick, the rapid-disconnect detector emits an alert exactly
when the trailing-5-minute event count reaches the threshold 3, and the
alert's score is `min(count*2, 10)`; in the §8 scenario of four
disconnects within 3 minutes, the next tick (time 200) emits exactly one
alert — rapid-disconnect with score 8 — and the following tick (time 215,
no new disconnects) emits nothing. -/
theorem rapid_disconnect_threshold_and_score :
    (∀ (st : MonitorState) (now : ℚ),
      ((tick st now).2.filter (fun a => a.pattern = "rapid_disconnect")).map
          (fun a => a.threat_score)
        = (if rapid_disconnect_threshold ≤ rapidWindowCount st now
           then [min ((rapidWindowCount st now : ℤ) * 2) 10] else []))
    ∧ (tick officeState 200).2.map (fun a => (a.pattern, a.threat_score))
        = [("rapid_disconnect", 8)]
    ∧ (tick (tick officeState 200).1 215).2 = [] := by
  refine ⟨?_, ?_, ?_⟩
  · intro st now
    by_cases hg : st.disconnect_history.length < 2
    · have hcnt : rapidWindowCount st now < 2 :=
        lt_of_le_of_lt (List.length_filter_le _ _) hg
      rw [tick, if_pos hg]
      have hn : ¬ rapid_disconnect_threshold ≤ rapidWindowCount st now := by
        unfold rapid_disconnect_threshold; omega
      simp [hn]
    · rw [tick, if_neg hg]
      dsimp only
      rw [List.filter_append, List.filter_append, List.filter_append]
      have e2 : (analyze_temporal_patterns
          (analyze_rapid_disconnects st now).1.disconnect_history now).filter
          (fun a => a.pattern = "rapid_disconnect") = [] := by
        rw [List.filter_eq_nil_iff]
        intro a ha
        have ht := mem_temporal_tag _ now a ha
        simp [ht]
      have e3 : (analyze_network_targeting
          (analyze_rapid_disconnects st now).1.disconnect_history now).filter
          (fun a => a.pattern = "rapid_disconnect") = [] := by
        rw [List.filter_eq_nil_iff]
        intro a ha
        have ht := mem_targeting_tag _ now a ha
        simp [ht]
      have e4 : (analyze_signal_based_attacks
          (analyze_rapid_disconnects st now).1.signal_history now).filter
          (fun a => a.pattern = "rapid_disconnect") = [] := by
        rw [List.filter_eq_nil_iff]
        intro a ha
        have ht := mem_interference_tag _ now a ha
        simp [ht]
      rw [e2, e3, e4]
      unfold analyze_rapid_disconnects rapidWindowCount
      dsimp only
      split_ifs with hc
      · simp
      · simp
  · norm_num [tick, officeState, officeEvent, initialState, default_status,
      analyze_rapid_disconnects, analyze_temporal_patterns,
      analyze_network_targeting, analyze_signal_based_attacks,
      rapid_disconnect_threshold, suspicious_window_seconds,
      intervalsOf, listAvg, dedupFirst, optTruthy, List.foldl, List.filterMap]
  · norm_num [tick, officeState, officeEvent, initialState, default_status,
      analyze_rapid_disconnects, analyze_temporal_patterns,
      analyze_network_targeting, analyze_signal_based_attacks,
      rapid_disconnect_threshold, suspicious_window_seconds,
      intervalsOf, listAvg, dedupFirst, optTruthy, List.foldl, List.filterMap]

/-! ## Claim C5: what the rapid-disconnect clear leaves in the store. -/

/-- A cluster of three late "Office" disconnects (940, 950, 960) plus one
older event (100) that is at/before the 5-minute cutoff of a tick at
time 1000. -/
def lateClusterState : MonitorState :=
  { initialState with disconnect_history :=
      [officeEvent 100, officeEvent 940, officeEvent 950, officeEvent 960] }

/-- C5 counterexample: the claim says that after the rapid-disconnect
detector fires, the store contains exactly the events strictly after the
cutoff and drops those at/before it. The code does the opposite
(`timestamp <= recent_window` is kept): at the tick at time 1000 the
detector fires (score 6), yet afterwards the store holds exactly the old
event stamped 100 — which is at/before the cutoff 700 — while the three
in-window events (940, 950, 960) are gone. -/
theorem rapid_clear_direction_counterexample :
    ((tick lateClusterState 1000).2.filter
        (fun a => a.pattern = "rapid_disconnect")).map (fun a => a.threat_score)
      = [6]
    ∧ (tick lateClusterState 1000).1.disconnect_history.map
        (fun d => d.timestamp) = [100]
    ∧ (100 : ℚ) ≤ 1000 - suspicious_window_seconds
    ∧ (1000 : ℚ) - suspicious_window_seconds < 940 := by
  refine ⟨?_, ?_, by norm_num [suspicious_window_seconds],
    by norm_num [suspicious_window_seconds]⟩ <;>
  · norm_num [tick, lateClusterState, officeEvent, initialState, default_status,
      analyze_rapid_disconnects, analyze_temporal_patterns,
      analyze_network_targeting, analyze_signal_based_attacks,
      rapid_disconnect_threshold, suspicious_window_seconds,
      intervalsOf, listAvg, dedupFirst, optTruthy, List.foldl, List.filterMap]
    try decide

/-- C5 amended: on any tick, if the rapid-disconnect detector fires (the
trailing-5-minute count reaches the threshold), the disconnect store
afterwards contains exactly the events at or before the window's cutoff,
kept unchanged in order, with every event strictly inside the window
removed; if it does not fire, the store is unchanged. -/
theorem rapid_clear_keeps_pre_window_events (st : MonitorState) (now : ℚ) :
    (tick st now).1.disconnect_history
      = if rapid_disconnect_threshold ≤ rapidWindowCount st now
        then st.disconnect_history.filter
          (fun d => d.timestamp ≤ now - suspicious_window_seconds)
        else st.disconnect_history := by
  by_cases hg : st.disconnect_history.length < 2
  · have hcnt : rapidWindowCount st now < 2 :=
      lt_of_le_of_lt (List.length_filter_le _ _) hg
    rw [tick, if_pos hg]
    have hn : ¬ rapid_disconnect_threshold ≤ rapidWindowCount st now := by
      unfold rapid_disconnect_threshold; omega
    rw [if_neg hn]
  · rw [tick, if_neg hg]
    dsimp only
    unfold analyze_rapid_disconnects rapidWindowCount
    dsimp only
    split_ifs with hc
    · rfl
    · rfl

/-! ## Claim C6: the temporal-regularity detector. -/

/-- The firing condition of the temporal-regularity detector as the claim
states it: at least 4 events in the trailing 2 hours whose consecutive
inter-event intervals have mean absolute deviation below 30 s and average
below 600 s. -/
def temporalCondition (history : List DisconnectInfo) (now : ℚ) : Prop :=
  let recent := history.filter (fun d => now - 2 * 3600 < d.timestamp)
  let intervals := intervalsOf (recent.map (fun d => d.timestamp))
  let avg_interval := listAvg intervals
  let avg_deviation := listAvg (intervals.map (fun i => |i - avg_interval|))
  4 ≤ recent.length ∧ avg_deviation < 30 ∧ avg_interval < 600

instance (history : List DisconnectInfo) (now : ℚ) :
    Decidable (temporalCondition history now) := by
  unfold temporalCondition
  infer_instance

theorem intervalsOf_length : ∀ l : List ℚ, (intervalsOf l).length = l.length - 1
  | [] => rfl
  | [_] => rfl
  | a :: b :: rest => by
    rw [intervalsOf, List.length_cons, intervalsOf_length (b :: rest)]
    simp

/-- A disconnect event from SSID "Net". -/
def netEvent (t : ℚ) : DisconnectInfo :=
  { timestamp := t, ssid := some "Net", last_signal := 80,
    connection_duration := 10, channel := 6, auth_type := "WPA2",
    threat_score := 5, disconnect_reason := "Strong signal disconnect (possible deauth)" }

/-- Five disconnects at exact 300-second intervals. -/
def regularState : MonitorState :=
  { initialState with disconnect_history :=
      [netEvent 0, netEvent 300, netEvent 600, netEvent 900, netEvent 1200] }

/-- Five disconnects with the irregular intervals 50 s, 900 s, 120 s,
700 s. -/
def irregularState : MonitorState :=
  { initialState with disconnect_history :=
      [netEvent 0, netEvent 50, netEvent 950, netEvent 1070, netEvent 1770] }

/-- C6: on any tick the temporal-regularity detector emits exactly one
alert, of fixed score 8, precisely when `temporalCondition` holds for the
history it reads; the five 300-second-spaced disconnects fire it at the
tick at 1201 with score 8, and the five irregularly spaced disconnects do
not fire it at the tick at 1771. -/
theorem temporal_regularity_rule :
    (∀ (history : List DisconnectInfo) (now : ℚ),
      (analyze_temporal_patterns history now).map (fun a => a.threat_score)
        = if temporalCondition history now then [8] else [])
    ∧ ((tick regularState 1201).2.filter
        (fun a => a.pattern = "temporal_regularity")).map
          (fun a => a.threat_score) = [8]
    ∧ (tick irregularState 1771).2.filter
        (fun a => a.pattern = "temporal_regularity") = [] := by
  refine ⟨?_, ?_, ?_⟩
  · intro history now
    unfold analyze_temporal_patterns temporalCondition
    dsimp only
    by_cases h4 : 4 ≤ (history.filter
        (fun d => decide (now - 2 * 3600 < d.timestamp))).length
    · have h3 : 3 ≤ (intervalsOf ((history.filter
          (fun d => decide (now - 2 * 3600 < d.timestamp))).map
            (fun d => d.timestamp))).length := by
        rw [intervalsOf_length, List.length_map]
        omega
      rw [if_pos h4, if_pos h3]
      split_ifs with h5 h6 h7
      · simp
      · exact absurd ⟨h4, h5⟩ h6
      · exact absurd ⟨h7.2.1, h7.2.2⟩ h5
      · simp
    · rw [if_neg h4]
      have hn : ¬ (4 ≤ (history.filter
          (fun d => decide (now - 2 * 3600 < d.timestamp))).length
          ∧ listAvg ((intervalsOf ((history.filter
              (fun d => decide (now - 2 * 3600 < d.timestamp))).map
                (fun d => d.timestamp))).map (fun i => |i - listAvg
                  (intervalsOf ((history.filter
                    (fun d => decide (now - 2 * 3600 < d.timestamp))).map
                      (fun d => d.timestamp)))|)) < 30
          ∧ listAvg (intervalsOf ((history.filter
              (fun d => decide (now - 2 * 3600 < d.timestamp))).map
                (fun d => d.timestamp))) < 600) := fun hx => h4 hx.1
      rw [if_neg hn]
      simp
  · norm_num [tick, regularState, netEvent, initialState, default_status,
      analyze_rapid_disconnects, analyze_temporal_patterns,
      analyze_network_targeting, analyze_signal_based_attacks,
      rapid_disconnect_threshold, suspicious_window_seconds,
      intervalsOf, listAvg, dedupFirst, optTruthy, List.foldl, List.filterMap]
    try decide
  · norm_num [tick, irregularState, netEvent, initialState, default_status,
      analyze_rapid_disconnects, analyze_temporal_patterns,
      analyze_network_targeting, analyze_signal_based_attacks,
      rapid_disconnect_threshold, suspicious_window_seconds,
      intervalsOf, listAvg, dedupFirst, optTruthy, List.foldl, List.filterMap,
      abs_of_nonneg]
    try decide

/-- The signal-strength factor as the claim words it, amended only at the
lower boundary: +4 above 70%, +2 strictly above 50% and at most 70%, else
+0 (so exactly 50% gets +0). -/
def signalFactorAmended (s : Nat) : ℤ :=
  if 70 < s then 4
  else if 50 < s ∧ s ≤ 70 then 2
  else 0

/-- C8 amended: the scorer's signal-strength factor contributes exactly
+4 when the last signal strength is greater than 70%, exactly +2 when it
is strictly greater than 50% and at most 70%, and +0 otherwise — in
particular an event with last signal exactly 50% receives +0 from this
factor. -/
theorem signal_factor_amended (s : Nat) :
    signalFactor s = signalFactorAmended s ∧ signalFactor 50 = 0 := by
  unfold signalFactor signalFactorAmended
  refine ⟨?_, by decide⟩
  split_ifs <;> omega

/-! ## Claim C7: the signal-interference scenario. -/

/-- A disconnect event with no SSID recorded (SSID-keyed checks skip
it). -/
def anonEvent (t : ℚ) : DisconnectInfo :=
  { timestamp := t, ssid := none, last_signal := 40,
    connection_duration := 500, channel := 6, auth_type := "WPA2",
    threat_score := 0, disconnect_reason := "Normal signal disconnect" }

/-- The ten alternating "Cafe" samples together with two stored disconnect
events, so that the tick's fewer-than-two-events guard passes. -/
def cafeWithEventsState : MonitorState :=
  { initialState with
    disconnect_history := [anonEvent 1, anonEvent 2],
    signal_history := cafeSamples }

/-- C7 counterexample: the claimed scenario does not fire. First, with
only the ten qualifying "Cafe" samples in the signal store, `tick`
returns before the signal analysis because the disconnect store holds
fewer than 2 events. Second, even with two disconnect events present,
ten samples alternating equally between 10% and 90% have mean exactly 50,
and the code requires `avg_signal < 50` strictly, so no SignalInterference
alert is emitted (the variance is 1600, so that condition alone is met). -/
theorem signal_interference_scenario_counterexample :
    (tick cafeOnlyState 200).2 = []
    ∧ (tick cafeWithEventsState 200).2 = []
    ∧ calculate_variance (cafeSamples.map (fun s => (s.signal : ℚ))) = 1600
    ∧ listAvg (cafeSamples.map (fun s => (s.signal : ℚ))) = 50 := by
  refine ⟨by decide, ?_, ?_, ?_⟩
  · norm_num [tick, cafeWithEventsState, cafeSamples, anonEvent, initialState,
      default_status, analyze_rapid_disconnects, analyze_temporal_patterns,
      analyze_network_targeting, analyze_signal_based_attacks,
      rapid_disconnect_threshold, suspicious_window_seconds,
      calculate_variance, intervalsOf, listAvg, dedupFirst, optTruthy,
      List.foldl, List.filterMap, -List.filter_filter]
    try simp
    try norm_num
    try simp
    try norm_num
  · norm_num [calculate_variance, listAvg, cafeSamples]
  · norm_num [listAvg, cafeSamples]

/-- Ten "Cafe" samples inside the 10-minute window with six 10% and four
90% readings: mean 42 (below 50), population variance 1536 (above 400). -/
def biasedCafeSamples : List SignalEntry :=
  [{ timestamp := 10, ssid := some "Cafe", signal := 10, channel := 6 },
   { timestamp := 20, ssid := some "Cafe", signal := 90, channel := 6 },
   { timestamp := 30, ssid := some "Cafe", signal := 10, channel := 6 },
   { timestamp := 40, ssid := some "Cafe", signal := 90, channel := 6 },
   { timestamp := 50, ssid := some "Cafe", signal := 10, channel := 6 },
   { timestamp := 60, ssid := some "Cafe", signal := 90, channel := 6 },
   { timestamp := 70, ssid := some "Cafe", signal := 10, channel := 6 },
   { timestamp := 80, ssid := some "Cafe", signal := 90, channel := 6 },
   { timestamp := 90, ssid := some "Cafe", signal := 10, channel := 6 },
   { timestamp := 100, ssid := some "Cafe", signal := 10, channel := 6 }]

/-- The biased "Cafe" samples together with two stored disconnect
events. -/
def biasedCafeState : MonitorState :=
  { initialState with
    disconnect_history := [anonEvent 1, anonEvent 2],
    signal_history := biasedCafeSamples }

/-- C7 amended: for a state whose disconnect store holds at least 2 events
(the tick's guard) and whose signal store holds 10 samples for SSID "Cafe"
within the trailing 10 minutes with population variance above 400 and mean
signal strictly below 50% (e.g. six 10% and four 90% readings — ten
samples alternating equally have mean exactly 50 and do not qualify), the
next `tick()` emits a SignalInterference alert with score 6, and nothing
else. -/
theorem signal_interference_scenario_amended :
    (tick biasedCafeState 200).2.map (fun a => (a.pattern, a.threat_score))
      = [("signal_interference", 6)]
    ∧ 400 < calculate_variance (biasedCafeSamples.map (fun s => (s.signal : ℚ)))
    ∧ listAvg (biasedCafeSamples.map (fun s => (s.signal : ℚ))) < 50
    ∧ biasedCafeState.disconnect_history.length = 2 := by
  refine ⟨?_, ?_, ?_, by decide⟩
  · norm_num [tick, biasedCafeState, biasedCafeSamples, anonEvent, initialState,
      default_status, analyze_rapid_disconnects, analyze_temporal_patterns,
      analyze_network_targeting, analyze_signal_based_attacks,
      rapid_disconnect_threshold, suspicious_window_seconds,
      calculate_variance, intervalsOf, listAvg, dedupFirst, optTruthy,
      List.foldl, List.filterMap, -List.filter_filter]
    try simp
    try norm_num
    try simp
    try norm_num
  · norm_num [calculate_variance, listAvg, biasedCafeSamples]
  · norm_num [listAvg, biasedCafeSamples]

/-! ## Claim C9: the recent-events query. -/

/-- Two "Office" events an hour window will retain at time 10000, stored
oldest first. -/
def twoEventsState : MonitorState :=
  { initialState with disconnect_history :=
      [officeEvent 7000, officeEvent 8000] }

/-- C9 counterexample: the claim says `get_recent_events` returns the
window's events ordered by time ascending (oldest first). The source
sorts with `reverse=True`: at time 10000 the two stored events come back
as [8000, 7000] — newest first — which is not ascending. -/
theorem recent_events_order_counterexample :
    (get_recent_events twoEventsState 10000).map (fun e => e.timestamp)
      = [8000, 7000]
    ∧ ¬ ((get_recent_events twoEventsState 10000).map
        (fun e => e.timestamp)).Sorted (· ≤ ·)
    ∧ (7000 : ℚ) < 8000 := by
  have h1 : (get_recent_events twoEventsState 10000).map (fun e => e.timestamp)
      = [8000, 7000] := by
    norm_num [get_recent_events, twoEventsState, officeEvent, initialState,
      default_status, mkEventSummary, List.insertionSort, List.orderedInsert,
      summaryGE]
  refine ⟨h1, ?_, by norm_num⟩
  rw [h1]
  norm_num [List.sorted_cons]

/-- C9 amended: for every state, `get_recent_events` returns exactly the
summaries of the events strictly inside the trailing 1-hour window (as a
permutation of the filtered store) ordered by time descending — newest
first under the second-truncated timestamp key the source sorts by. -/
theorem recent_events_exact_window_desc (st : MonitorState) (now : ℚ) :
    (get_recent_events st now).Perm
      ((st.disconnect_history.filter (fun d => now - 3600 < d.timestamp)).map
        mkEventSummary)
    ∧ (get_recent_events st now).Sorted summaryGE := by
  unfold get_recent_events
  exact ⟨List.perm_insertionSort _ _, List.sorted_insertionSort _ _⟩
